import Mathlib

/-!
Verification of the Credit Commander server core: the usage governor
(`checkUsageLimit` / `incrementUsage`), the `/api/generate` orchestrating
handler, the report store endpoints, and the client render/checksum
pipeline (`renderStructuredHTML`, `checksum`).  Machine integers are
modelled as `Nat` with explicit `% 2^32` where JavaScript 32-bit
semantics matter; database rows are modelled as explicit values; each
round-trip to the backing store is one atomic step.
-/

set_option maxRecDepth 20000

namespace CreditCommander

/-! ## Usage governor (server routes: `checkUsageLimit`, `incrementUsage`)

The per-(ipAddress, tool) row of the `usage_tracking` table is modelled as
`Option Nat`: `none` when the row is absent, `some n` when it holds
`reportCount = n`.  `ipKnown` models `getClientIp` resolving to something
other than `'unknown'`; `storeOk = false` models a backing-store call
throwing (the `catch` branches of the source). -/

abbrev Store := Option Nat

/-- Result record of `checkUsageLimit`: `{ allowed, count }`. -/
structure CheckResult where
  allowed : Bool
  count : Nat
deriving DecidableEq, Repr

/-- Result record of `incrementUsage`: `{ success, count, limitReached }`
(limitReached is absent, i.e. falsy, on the success paths). -/
structure UsageResult where
  success : Bool
  count : Nat
  limitReached : Bool
deriving DecidableEq, Repr

/-- `checkUsageLimit` (read-only): blocked result when the client IP is
unknown; fail-open `{allowed: true, count: 0}` when the store select
throws; otherwise compare the stored count against the 30-report limit. -/
def checkUsageLimit (ipKnown storeOk : Bool) (s : Store) : CheckResult :=
  if !ipKnown then ⟨false, 30⟩
  else if !storeOk then ⟨true, 0⟩
  else
    let currentCount := s.getD 0
    if currentCount ≥ 30 then ⟨false, currentCount⟩
    else ⟨true, currentCount⟩

/-- `incrementUsage`, run to completion without interference: fail-closed
when the IP is unknown or a store operation throws; otherwise the
conditional `UPDATE ... WHERE reportCount < 30`, falling back to the
`SELECT` (row exists at limit) and then the first-use `INSERT` of 1. -/
def incrementUsage (ipKnown storeOk : Bool) (s : Store) : Store × UsageResult :=
  if !ipKnown then (s, ⟨false, 30, true⟩)
  else if !storeOk then (s, ⟨false, 0, true⟩)
  else
    match s with
    | some n => if n < 30 then (some (n + 1), ⟨true, n + 1, false⟩) else (s, ⟨false, n, true⟩)
    | none => (some 1, ⟨true, 1, false⟩)

/-! ### Interleaved executions

An in-flight `incrementUsage` call is a thread that performs up to three
atomic store operations: the conditional update, the select, and the
insert.  `Modelled from the spec:` the `usage_tracking` schema
(`shared/schema.ts`, not in the sources) — per §3 a counter row is
"Unique per (identity, tool)", so a second concurrent `INSERT` for the
same key violates the unique key, which the source's `catch` turns into
`{success: false, count: 0, limitReached: true}`. -/

inductive IncPhase where
  | atUpdate
  | atSelect
  | atInsert
  | done (r : UsageResult)
deriving DecidableEq, Repr

/-- One atomic store operation of an in-flight increment. -/
def incStep (s : Store) (p : IncPhase) : Store × IncPhase :=
  match p with
  | .atUpdate =>
    match s with
    | some n =>
      if n < 30 then (some (n + 1), .done ⟨true, n + 1, false⟩)
      else (s, .atSelect)
    | none => (s, .atSelect)
  | .atSelect =>
    match s with
    | some n => (s, .done ⟨false, n, true⟩)
    | none => (s, .atInsert)
  | .atInsert =>
    match s with
    | none => (some 1, .done ⟨true, 1, false⟩)
    | some _ => (s, .done ⟨false, 0, true⟩)
  | .done r => (s, .done r)

/-- A configuration: the stored row plus the local state of each
concurrent increment call. -/
structure Config where
  store : Store
  threads : List IncPhase
deriving DecidableEq, Repr

/-- Advance thread `i` by one atomic store operation. -/
def stepThread (c : Config) (i : Nat) : Config :=
  match c.threads.get? i with
  | none => c
  | some p =>
    let sp := incStep c.store p
    ⟨sp.1, c.threads.set i sp.2⟩

/-- Run a schedule: a list of thread indices, each performing its next
atomic store operation in turn. -/
def run (c : Config) (sched : List Nat) : Config :=
  sched.foldl stepThread c

/-- Results reported by the completed calls of a configuration. -/
def results (c : Config) : List UsageResult :=
  c.threads.filterMap fun p =>
    match p with
    | .done r => some r
    | _ => none

/-- The stored count (0 when the row is absent). -/
def storedCount (s : Store) : Nat := s.getD 0

/-- The bound invariant on the stored row. -/
def storeInv (s : Store) : Prop := ∀ n, s = some n → n ≤ 30

/-- `N` sequential (non-interleaved) `incrementUsage` calls. -/
def iterateInc : Nat → Store → Store × List UsageResult
  | 0, s => (s, [])
  | n + 1, s =>
    let p := incrementUsage true true s
    let q := iterateInc n p.1
    (q.1, p.2 :: q.2)

/-- Number of calls that reported `success = true`. -/
def successCount (rs : List UsageResult) : Nat :=
  (rs.filter fun r => r.success).length

/-! ## Tool normalization (`normalizeTool`) -/

/-- ASCII lowercasing of one character (`toLowerCase`). -/
def lowerChar (c : Char) : Char :=
  if 65 ≤ c.toNat ∧ c.toNat ≤ 90 then Char.ofNat (c.toNat + 32) else c

/-- `String.prototype.toLowerCase` over the characters. -/
def toLowerJs (s : String) : String := String.mk (s.data.map lowerChar)

/-- `String.prototype.trim`: strip leading and trailing whitespace. -/
def trimJs (s : String) : String :=
  String.mk (((s.data.dropWhile Char.isWhitespace).reverse.dropWhile
    Char.isWhitespace).reverse)

/-- JavaScript's `String(tool || 'creditcommander')`: absent/null and the
empty string are falsy and fall back to the default. -/
def jsToolString (tool : Option String) : String :=
  match tool with
  | none => "creditcommander"
  | some s => if s = "" then "creditcommander" else s

/-- `normalizeTool`: lowercase, trim, and map everything that is not
exactly `complipilot` to `creditcommander`. -/
def normalizeTool (tool : Option String) : String :=
  let normalized := trimJs (toLowerJs (jsToolString tool))
  if normalized = "complipilot" then "complipilot" else "creditcommander"

/-! ## Render pipeline (client script: `escapeHtml`, `safePlaceholder`,
`renderVendorRecommendations`, `renderCardRecommendations`,
`renderStructuredHTML`, `checksum`)

String-valued fields model JavaScript strings with `""` for the falsy
absent/empty cases collapsed by the source's `|| default` idioms. -/

/-- One generated vendor recommendation record.  `minFico = 0` is falsy
in `v.minFico || 'N/A'`; an absent `approvalOdds` is `""`. -/
structure VendorRec where
  name : String
  tier : String
  minFico : Nat
  reportsBureaus : List String
  reason : String
  approvalOdds : String
deriving DecidableEq, Repr

/-- One generated card recommendation record.  `applyOrder = none`
models a non-number (`typeof a.applyOrder === 'number'` false). -/
structure CardRec where
  name : String
  issuer : String
  minFico : Nat
  expectedLimit : String
  reason : String
  approvalOdds : String
  applyOrder : Option Nat
deriving DecidableEq, Repr

/-- The normalized generated-content object (the nine defaulted fields
destructured at the top of `renderStructuredHTML`). -/
structure Content where
  profileSummary : String
  quickWins : String
  tradeLinesPlan : String
  vendorRecommendations : List VendorRec
  cardStrategy : String
  cardRecommendations : List CardRec
  bankingSignals : String
  actionPlan : String
  riskFlags : String
deriving DecidableEq, Repr

/-- The profile-payload fields read by the header block of
`renderStructuredHTML`. -/
structure Payload where
  businessName : String
  entityType : String
  utilization : String
  targetLimit : String
  tone : String
deriving DecidableEq, Repr

/-- HTML text-node escaping of one character, as produced by the DOM
`textContent`/`innerHTML` round trip used by `escapeHtml`. -/
def escapeChar (c : Char) : String :=
  if c = '&' then "&amp;"
  else if c = '<' then "&lt;"
  else if c = '>' then "&gt;"
  else String.singleton c

/-- `escapeHtml`: `''` for falsy input, otherwise escape the string for
an HTML text node. -/
def escapeHtml (s : String) : String :=
  if s = "" then "" else String.join (s.data.map escapeChar)

/-- The visually distinct placeholder marker emitted by
`safePlaceholder`. -/
def placeholderMarker : String :=
  "<em style=\"color: rgb(var(--text-muted-rgb));\">[Pending Input]</em>"

/-- `safePlaceholder`: escaped content, or the styled placeholder for a
missing/empty value. -/
def safePlaceholder (val : String) : String :=
  if val = "" then placeholderMarker else escapeHtml val

/-- Whether `p` is an initial run of `s` (helper for substring tests). -/
def leadsWith : List Char → List Char → Bool
  | [], _ => true
  | _ :: _, [] => false
  | p :: ps, c :: cs => p == c && leadsWith ps cs

/-- Whether the pattern occurs anywhere in the text. -/
def occursIn (pat : List Char) : List Char → Bool
  | [] => leadsWith pat []
  | c :: cs => leadsWith pat (c :: cs) || occursIn pat cs

/-- JavaScript `String.prototype.includes`. -/
def containsSub (s pat : String) : Bool := occursIn pat.data s.data

/-- Number of positions at which the pattern occurs in the text. -/
def countOcc (pat : List Char) : List Char → Nat
  | [] => 0
  | c :: cs => (if leadsWith pat (c :: cs) then 1 else 0) + countOcc pat cs

/-- `getApprovalClass`: badge class from the odds text. -/
def getApprovalClass (odds : String) : String :=
  if odds = "" then "default"
  else
    let lower := toLowerJs odds
    if containsSub lower "high" then "success"
    else if containsSub lower "medium" then "warning"
    else if containsSub lower "low" then "danger"
    else "default"

/-- `.replace(/\s+/g, '-')`: collapse each maximal whitespace run into a
single dash (the flag tracks whether the previous character was
whitespace). -/
def squashWsAux : Bool → List Char → List Char
  | _, [] => []
  | inWs, c :: cs =>
    if c.isWhitespace then
      if inWs then squashWsAux true cs else '-' :: squashWsAux true cs
    else c :: squashWsAux false cs

/-- The `data-testid` slug:
`escapeHtml(name || 'unknown').replace(/\s+/g, '-').toLowerCase()`. -/
def testIdSlug (name : String) : String :=
  toLowerJs (String.mk (squashWsAux false (escapeHtml (if name = "" then "unknown" else name)).data))

/-- One vendor card of `renderVendorRecommendations`. -/
def vendorCard (v : VendorRec) : String :=
  "\n            <div class=\"recommendation-card\" style=\"background: rgba(77,182,231,0.08); border: 1px solid rgba(77,182,231,0.2); border-radius: 8px; padding: 16px; margin-bottom: 12px;\" data-testid=\"vendor-card-"
  ++ testIdSlug v.name
  ++ "\">\n                <div style=\"display: flex; justify-content: space-between; align-items: flex-start; margin-bottom: 10px;\">\n                    <h4 style=\"margin: 0; color: #4DB6E7; font-size: 16px; font-weight: 600;\">"
  ++ escapeHtml (if v.name = "" then "Unknown Vendor" else v.name)
  ++ "</h4>\n                    <span class=\"cc-badge cc-badge--"
  ++ getApprovalClass v.approvalOdds
  ++ "\" data-testid=\"badge-approval-"
  ++ (if v.approvalOdds = "" then "unknown" else toLowerJs v.approvalOdds)
  ++ "\">\n                        "
  ++ escapeHtml (if v.approvalOdds = "" then "N/A" else v.approvalOdds)
  ++ " Approval\n                    </span>\n                </div>\n                <div style=\"margin-bottom: 8px;\">\n                    <span class=\"cc-badge cc-badge--info\" data-testid=\"badge-tier\">"
  ++ escapeHtml (if v.tier = "" then "N/A" else v.tier)
  ++ "</span>\n                    <span class=\"cc-badge cc-badge--default\" data-testid=\"badge-min-fico\">Min FICO: "
  ++ (if v.minFico = 0 then "N/A" else toString v.minFico)
  ++ "</span>\n                </div>\n                <p style=\"margin: 8px 0; color: var(--text-color); font-size: 14px;\">"
  ++ escapeHtml v.reason
  ++ "</p>\n                "
  ++ (if v.reportsBureaus.length > 0 then
      "\n                    <div style=\"font-size: 12px; color: var(--text-secondary);\">\n                        <strong>Reports to:</strong> "
      ++ String.intercalate ", " (v.reportsBureaus.map escapeHtml)
      ++ "\n                    </div>\n                "
    else "")
  ++ "\n            </div>\n        "

/-- `renderVendorRecommendations`: empty string for a missing/empty
list, otherwise the section wrapper around the vendor cards, in the
input list's own order. -/
def renderVendorRecommendations (vendors : List VendorRec) : String :=
  if vendors.length = 0 then ""
  else
    "\n            <div class=\"cc-card\" style=\"padding: 18px; margin-bottom: 20px;\">\n                <h3 class=\"cc-section-title\" style=\"border-left: 2px solid rgba(255,213,74,.35); padding-left: 14px; margin: 0 0 14px 0;\">Recommended Vendors</h3>\n                <div data-testid=\"vendor-recommendations\">\n                    "
    ++ String.join (vendors.map vendorCard)
    ++ "\n                </div>\n            </div>\n        "

/-- The sort key of `[...cards].sort(...)`: the numeric `applyOrder`,
defaulting to 99. -/
def cardKey (c : CardRec) : Nat := c.applyOrder.getD 99

/-- The comparison-sort of the card list by `applyOrder`. -/
def sortCards (cs : List CardRec) : List CardRec :=
  List.insertionSort (fun a b => cardKey a ≤ cardKey b) cs

/-- One card of `renderCardRecommendations`. -/
def cardCard (c : CardRec) : String :=
  "\n            <div class=\"recommendation-card\" style=\"background: rgba(255,213,74,0.08); border: 1px solid rgba(255,213,74,0.2); border-radius: 8px; padding: 16px; margin-bottom: 12px;\" data-testid=\"card-card-"
  ++ testIdSlug c.name
  ++ "\">\n                <div style=\"display: flex; justify-content: space-between; align-items: flex-start; margin-bottom: 10px;\">\n                    <div>\n                        <h4 class=\"card-name-title\" style=\"margin: 0 0 4px 0; color: #FFD54A; font-size: 16px; font-weight: 600;\">"
  ++ escapeHtml (if c.name = "" then "Unknown Card" else c.name)
  ++ "</h4>\n                        <div style=\"font-size: 13px; color: var(--text-secondary);\">"
  ++ escapeHtml c.issuer
  ++ "</div>\n                    </div>\n                    <span class=\"cc-badge cc-badge--"
  ++ getApprovalClass c.approvalOdds
  ++ "\" data-testid=\"badge-approval-"
  ++ (if c.approvalOdds = "" then "unknown" else toLowerJs c.approvalOdds)
  ++ "\">\n                        "
  ++ escapeHtml (if c.approvalOdds = "" then "N/A" else c.approvalOdds)
  ++ " Approval\n                    </span>\n                </div>\n                <div style=\"margin-bottom: 8px;\">\n                    "
  ++ (match c.applyOrder with
      | some k =>
        if k = 0 then ""
        else "<span class=\"cc-badge cc-badge--primary\" data-testid=\"badge-apply-order\">Apply Order: #"
          ++ toString k ++ "</span>"
      | none => "")
  ++ "\n                    <span class=\"cc-badge cc-badge--default\" data-testid=\"badge-min-fico\">Min FICO: "
  ++ (if c.minFico = 0 then "N/A" else toString c.minFico)
  ++ "</span>\n                    "
  ++ (if c.expectedLimit = "" then ""
      else "<span class=\"cc-badge cc-badge--info\" data-testid=\"badge-expected-limit\">"
        ++ escapeHtml c.expectedLimit ++ "</span>")
  ++ "\n                </div>\n                <p style=\"margin: 8px 0; color: var(--text-color); font-size: 14px;\">"
  ++ escapeHtml c.reason
  ++ "</p>\n            </div>\n        "

/-- `renderCardRecommendations`: empty string for a missing/empty list,
otherwise the section wrapper around the cards sorted by `applyOrder`. -/
def renderCardRecommendations (cards : List CardRec) : String :=
  if cards.length = 0 then ""
  else
    "\n            <div class=\"cc-card\" style=\"padding: 18px; margin-bottom: 20px;\">\n                <h3 class=\"cc-section-title\" style=\"border-left: 2px solid rgba(255,213,74,.35); padding-left: 14px; margin: 0 0 14px 0;\">Recommended Business Cards</h3>\n                <div data-testid=\"card-recommendations\">\n                    "
    ++ String.join ((sortCards cards).map cardCard)
    ++ "\n                </div>\n            </div>\n        "

/-- The header metadata block built from the profile payload. -/
def headerBlock (p : Payload) : String :=
  "\n            <div class=\"doc-meta\">\n                <div><strong>Business:</strong> "
  ++ safePlaceholder p.businessName
  ++ "</div>\n                <div><strong>Entity Type:</strong> "
  ++ safePlaceholder p.entityType
  ++ "</div>\n                <div><strong>Current Utilization:</strong> "
  ++ safePlaceholder p.utilization
  ++ "%</div>\n                <div><strong>Target Credit Limit:</strong> "
  ++ safePlaceholder p.targetLimit
  ++ "</div>\n                <div><strong>Tone:</strong> "
  ++ safePlaceholder (if p.tone = "" then "Professional" else p.tone)
  ++ "</div>\n            </div>\n            <hr/>\n        "

/-- The seven generated-content sections, in the source's fixed order;
this is the part of the rendered HTML that depends only on `generated`. -/
def sectionsHTML (g : Content) : String :=
  "\n\n            <div class=\"cc-card\" style=\"padding: 18px; margin-bottom: 20px;\">\n                <h2 class=\"cc-section-title\" style=\"border-left: 2px solid rgba(255,213,74,.35); padding-left: 14px; margin: 0 0 14px 0;\">Profile Summary</h2>\n                <div class=\"section-content\">"
  ++ safePlaceholder g.profileSummary
  ++ "</div>\n            </div>\n\n            <div class=\"cc-card\" style=\"padding: 18px; margin-bottom: 20px;\">\n                <h3 class=\"cc-section-title\" style=\"border-left: 2px solid rgba(255,213,74,.35); padding-left: 14px; margin: 0 0 14px 0;\">Banking & Data Signals</h3>\n                <div class=\"section-content\">"
  ++ safePlaceholder g.bankingSignals
  ++ "</div>\n            </div>\n\n            <div class=\"cc-card\" style=\"padding: 18px; margin-bottom: 20px;\">\n                <h3 class=\"cc-section-title\" style=\"border-left: 2px solid rgba(255,213,74,.35); padding-left: 14px; margin: 0 0 14px 0;\">Quick Wins (0-30 Days)</h3>\n                <div class=\"section-content\">"
  ++ safePlaceholder g.quickWins
  ++ "</div>\n            </div>\n\n            <div class=\"cc-card\" style=\"padding: 18px; margin-bottom: 20px;\">\n                <h3 class=\"cc-section-title\" style=\"border-left: 2px solid rgba(255,213,74,.35); padding-left: 14px; margin: 0 0 14px 0;\">Tiered Trade Lines Plan</h3>\n                <div class=\"section-content\">"
  ++ safePlaceholder g.tradeLinesPlan
  ++ "</div>\n            </div>\n\n            "
  ++ renderVendorRecommendations g.vendorRecommendations
  ++ "\n\n            <div class=\"cc-card\" style=\"padding: 18px; margin-bottom: 20px;\">\n                <h3 class=\"cc-section-title\" style=\"border-left: 2px solid rgba(255,213,74,.35); padding-left: 14px; margin: 0 0 14px 0;\">Card Strategy</h3>\n                <div class=\"section-content\">"
  ++ safePlaceholder g.cardStrategy
  ++ "</div>\n            </div>\n\n            "
  ++ renderCardRecommendations g.cardRecommendations
  ++ "\n\n            <div class=\"cc-card\" style=\"padding: 18px; margin-bottom: 20px;\">\n                <h3 class=\"cc-section-title\" style=\"border-left: 2px solid rgba(255,213,74,.35); padding-left: 14px; margin: 0 0 14px 0;\">30/60/90-Day Action Plan</h3>\n                <div class=\"section-content\">"
  ++ safePlaceholder g.actionPlan
  ++ "</div>\n            </div>\n\n            <div class=\"cc-card\" style=\"padding: 18px; margin-bottom: 20px;\">\n                <h3 class=\"cc-section-title\" style=\"border-left: 2px solid rgba(255,213,74,.35); padding-left: 14px; margin: 0 0 14px 0;\">Risk Flags & Compliance</h3>\n                <div class=\"section-content\">"
  ++ safePlaceholder g.riskFlags
  ++ "</div>\n            </div>\n        "

/-- `renderStructuredHTML`: the unified renderer — header metadata block
followed by the seven sections. -/
def renderStructuredHTML (p : Payload) (g : Content) : String :=
  "\n            " ++ headerBlock p ++ sectionsHTML g

/-! ## Checksum (djb2-xor over JavaScript 32-bit integers) -/

/-- `2^32`, the modulus of JavaScript's `ToInt32`/`>>> 0` coercions. -/
def M32 : Nat := 4294967296

/-- One step of the hash loop:
`hash = ((hash << 5) + hash) ^ str.charCodeAt(i)` under 32-bit
semantics, i.e. `(33 * hash mod 2^32) xor code`. -/
def dstep (h c : Nat) : Nat := ((h * 33) % M32) ^^^ (c % M32)

/-- The final 32-bit hash value (`hash >>> 0`) over the string's UTF-16
code units. -/
def checksumHash (units : List Nat) : Nat := units.foldl dstep 5381

/-- Lowercase hexadecimal digit characters, as in `toString(16)`. -/
def hexDigitChar (d : Nat) : Char :=
  if d = 0 then '0' else if d = 1 then '1' else if d = 2 then '2'
  else if d = 3 then '3' else if d = 4 then '4' else if d = 5 then '5'
  else if d = 6 then '6' else if d = 7 then '7' else if d = 8 then '8'
  else if d = 9 then '9' else if d = 10 then 'a' else if d = 11 then 'b'
  else if d = 12 then 'c' else if d = 13 then 'd' else if d = 14 then 'e'
  else 'f'

/-- The `k` low-order base-16 digits of `n`, least significant first. -/
def hexDigitsLE : Nat → Nat → List Nat
  | 0, _ => []
  | k + 1, n => (n % 16) :: hexDigitsLE k (n / 16)

/-- `('00000000' + hash.toString(16)).slice(-8)`: the zero-padded
eight-digit lowercase hexadecimal rendering of a 32-bit value. -/
def toHex8 (n : Nat) : String :=
  String.mk (((hexDigitsLE 8 n).reverse).map hexDigitChar)

/-- `checksum(str)` over the string's UTF-16 code units. -/
def checksum (units : List Nat) : String := toHex8 (checksumHash units)

/-- The checksum of a rendered HTML string (code points of the rendered
HTML are all in the basic plane, where code point = UTF-16 unit). -/
def checksumStr (s : String) : String := checksum (s.data.map Char.toNat)

/-! ## The `POST /api/generate` handler (server routes)

The external OpenAI call is an opaque fallible collaborator: it either
produces a normalized `Content` or throws one of the error classes the
`catch` block distinguishes.  The handler talks to the backing store
twice (check, then increment) with no enclosing transaction, so the two
store snapshots `sCheck` and `sInc` are separate parameters: concurrent
requests may change the row between the two calls. -/

/-- The error classes distinguished by the handler's `catch`. -/
inductive GenError where
  | insufficientQuota
  | rateLimited
  | authFailed
  | unexpected
deriving DecidableEq, Repr

/-- HTTP status for each external-generator error class. -/
def genErrorStatus : GenError → Nat
  | .insufficientQuota => 503
  | .rateLimited => 429
  | .authFailed => 401
  | .unexpected => 500

/-- Response message for each external-generator error class. -/
def genErrorMsg : GenError → String
  | .insufficientQuota => "Service temporarily unavailable. Please try again later."
  | .rateLimited => "Too many requests. Please wait a moment and try again."
  | .authFailed => "Authentication failed. Please check API configuration."
  | .unexpected => "An unexpected error occurred. Please try again."

/-- Request-side environment of one `/api/generate` call: the raw tool
value, whether the client IP resolves, whether each store round trip
succeeds, and whether the form data passes validation. -/
structure GenRequest where
  reqTool : Option String
  ipKnown : Bool
  checkDbOk : Bool
  incDbOk : Bool
  formValid : Bool
deriving DecidableEq, Repr

/-- The handler's possible JSON responses. -/
inductive HandlerResp where
  | ok (content : Content)
  | badRequest (msg : String)
  | quotaExceeded (msg : String) (limitReached : Bool) (count : Nat) (limit : Nat) (tool : String)
  | genFailure (status : Nat) (msg : String)
deriving DecidableEq, Repr

/-- HTTP status of a response. -/
def statusOf : HandlerResp → Nat
  | .ok _ => 200
  | .badRequest _ => 400
  | .quotaExceeded _ _ _ _ _ => 429
  | .genFailure st _ => st

/-- Display name interpolated into the quota message. -/
def toolDisplayName (tool : String) : String :=
  if tool = "creditcommander" then "Credit Commander" else "CompliPilot"

/-- The 429 quota-exceeded message (identical at both call sites). -/
def limitMsg (tool : String) : String :=
  "You have reached your 30-report limit for the " ++ toolDisplayName tool
  ++ " soft launch. Please upgrade to continue."

/-- The `POST /api/generate` handler: normalize the tool, check the
quota, validate, call the external generator, increment the counter only
after a successful generation, and discard the content when the
post-generation increment reports the limit.  Returns the stored row
after the request together with the response. -/
def generateHandler (req : GenRequest) (sCheck sInc : Store)
    (gen : Except GenError Content) : Store × HandlerResp :=
  let tool := normalizeTool req.reqTool
  let usageCheck := checkUsageLimit req.ipKnown req.checkDbOk sCheck
  if !usageCheck.allowed then
    (sInc, .quotaExceeded (limitMsg tool) true usageCheck.count 30 tool)
  else if !req.formValid then
    (sInc, .badRequest "All required fields must be completed.")
  else
    match gen with
    | .error e => (sInc, .genFailure (genErrorStatus e) (genErrorMsg e))
    | .ok content =>
      let res := incrementUsage req.ipKnown req.incDbOk sInc
      if !res.2.success && res.2.limitReached then
        (res.1, .quotaExceeded (limitMsg tool) true res.2.count 30 tool)
      else
        (res.1, .ok content)

/-! ## Report store (`/api/reports/list`, `/api/reports/:id`)

A `compliance_reports` row, restricted to the columns the ownership
claims depend on; the database is the list of rows. -/

structure Report where
  id : Nat
  userId : String
  toolkitCode : String
  name : String
  createdAt : Nat
deriving DecidableEq, Repr

/-- The summary columns selected by the list endpoint. -/
structure ReportSummary where
  id : Nat
  name : String
  createdAt : Nat
deriving DecidableEq, Repr

/-- Projection of a row to its list summary. -/
def summarize (r : Report) : ReportSummary := ⟨r.id, r.name, r.createdAt⟩

/-- The toolkit filter, with the legacy `grantgenie` alias matched when
`creditcommander` is requested. -/
def toolkitMatch (toolkit : String) (r : Report) : Bool :=
  if toolkit = "creditcommander" then
    r.toolkitCode == "creditcommander" || r.toolkitCode == "grantgenie"
  else r.toolkitCode == toolkit

/-- `GET /api/reports/list`: rows of the requested toolkit owned by the
caller, newest first. -/
def listReports (db : List Report) (userId toolkit : String) : List ReportSummary :=
  (List.insertionSort (fun a b => b.createdAt ≤ a.createdAt)
    (db.filter fun r => toolkitMatch toolkit r && r.userId == userId)).map summarize

/-- Response of the single-report read endpoint. -/
inductive GetResp where
  | found (r : Report)
  | notFound (msg : String)
deriving DecidableEq, Repr

/-- `GET /api/reports/:id`: select where `id` matches AND the caller
owns the row; 404 otherwise. -/
def getReport (db : List Report) (rid : Nat) (userId : String) : GetResp :=
  match db.find? (fun r => r.id == rid && r.userId == userId) with
  | some r => .found r
  | none => .notFound "Report not found."

/-- Response of the delete endpoint. -/
inductive DeleteResp where
  | success
  | notFound (msg : String)
deriving DecidableEq, Repr

/-- `DELETE /api/reports/:id`: delete where `id` matches AND the caller
owns the row; 404 when zero rows were deleted. -/
def deleteReport (db : List Report) (rid : Nat) (userId : String) :
    List Report × DeleteResp :=
  let deleted := db.filter fun r => r.id == rid && r.userId == userId
  if deleted.length = 0 then (db, .notFound "Report not found or access denied.")
  else (db.filter fun r => !(r.id == rid && r.userId == userId), .success)

/-! ## Theorems -/

/-- C9: whenever a backing-store operation throws, `checkUsageLimit`
fails open (`allowed = true`, `count = 0`) while `incrementUsage` fails
closed (`success = false`, `limitReached = true`) with the stored row
untouched, so a store error never lets an increment report a successful
uncounted charge. -/
theorem store_error_check_open_increment_closed :
    ∀ s : Store,
      checkUsageLimit true false s = ⟨true, 0⟩ ∧
      incrementUsage true false s = (s, ⟨false, 0, true⟩) ∧
      (incrementUsage true false s).2.success = false := by
  intro s
  exact ⟨rfl, rfl, rfl⟩

/-- C10: `normalizeTool` maps every input to one of the two known tool
identifiers; any input whose coerced, lowercased, trimmed form is not
exactly `complipilot` (absent and empty inputs included) is mapped to
`creditcommander`, so no caller-supplied tool string names a third
counter. -/
theorem normalizeTool_two_known_tools :
    ∀ tool : Option String,
      (normalizeTool tool = "creditcommander" ∨ normalizeTool tool = "complipilot") ∧
      (trimJs (toLowerJs (jsToolString tool)) ≠ "complipilot" →
        normalizeTool tool = "creditcommander") ∧
      (trimJs (toLowerJs (jsToolString tool)) = "complipilot" →
        normalizeTool tool = "complipilot") := by
  intro tool
  unfold normalizeTool
  by_cases h : trimJs (toLowerJs (jsToolString tool)) = "complipilot" <;>
    simp [h]

/-- Witness for C10 at concrete inputs. -/
theorem normalizeTool_two_known_tools_witness :
    normalizeTool (some "Credit-Commander") = "creditcommander" ∧
    normalizeTool none = "creditcommander" ∧
    normalizeTool (some "  CompliPilot ") = "complipilot" :=
  ⟨(normalizeTool_two_known_tools (some "Credit-Commander")).2.1 (by decide),
   (normalizeTool_two_known_tools none).2.1 (by decide),
   (normalizeTool_two_known_tools (some "  CompliPilot ")).2.2 (by decide)⟩

/-- C3: when the external generation call fails, the handler leaves the
stored usage row exactly as it was (the increment is only ever reached
after a successful generation) and answers with one of the error
statuses 500/503/429/401 instead of a report. -/
theorem failed_generation_no_charge (req : GenRequest) (sCheck sInc : Store)
    (e : GenError)
    (hAllowed : (checkUsageLimit req.ipKnown req.checkDbOk sCheck).allowed = true)
    (hValid : req.formValid = true) :
    (generateHandler req sCheck sInc (.error e)).1 = sInc ∧
    statusOf (generateHandler req sCheck sInc (.error e)).2 ∈ [500, 503, 429, 401] := by
  unfold generateHandler
  simp only [hAllowed, hValid, Bool.not_true, Bool.false_eq_true, if_false, ite_false]
  cases e <;> simp [statusOf, genErrorStatus]

/-- Witness for C3 at a concrete request. -/
theorem failed_generation_no_charge_witness :
    (generateHandler ⟨none, true, true, true, true⟩ none (some 5)
      (.error .unexpected)).1 = some 5 ∧
    statusOf (generateHandler ⟨none, true, true, true, true⟩ none (some 5)
      (.error .unexpected)).2 ∈ [500, 503, 429, 401] :=
  failed_generation_no_charge ⟨none, true, true, true, true⟩ none (some 5)
    .unexpected (by decide) (by decide)

/-- C4: when generation succeeds but the post-generation increment loses
the race (`success = false`, `limitReached = true`), the handler
discards the generated content and returns the 429 quota body
`{error, limitReached: true, count, limit: 30, tool}` — built by the
same constructor, message and limit as the pre-generation 429 (second
conjunct). -/
theorem lost_race_discards_content (req : GenRequest) (sCheck sInc : Store)
    (content : Content)
    (hAllowed : (checkUsageLimit req.ipKnown req.checkDbOk sCheck).allowed = true)
    (hValid : req.formValid = true)
    (hFail : (incrementUsage req.ipKnown req.incDbOk sInc).2.success = false)
    (hLimit : (incrementUsage req.ipKnown req.incDbOk sInc).2.limitReached = true) :
    generateHandler req sCheck sInc (.ok content) =
      ((incrementUsage req.ipKnown req.incDbOk sInc).1,
        .quotaExceeded (limitMsg (normalizeTool req.reqTool)) true
          (incrementUsage req.ipKnown req.incDbOk sInc).2.count 30
          (normalizeTool req.reqTool)) ∧
    ∀ (req' : GenRequest) (sC sI : Store) (g : Except GenError Content),
      (checkUsageLimit req'.ipKnown req'.checkDbOk sC).allowed = false →
      generateHandler req' sC sI g =
        (sI, .quotaExceeded (limitMsg (normalizeTool req'.reqTool)) true
          (checkUsageLimit req'.ipKnown req'.checkDbOk sC).count 30
          (normalizeTool req'.reqTool)) := by
  constructor
  · unfold generateHandler
    simp [hAllowed, hValid, hFail, hLimit]
  · intro req' sC sI g hBlocked
    unfold generateHandler
    simp [hBlocked]

/-- Witness for C4: the checking snapshot sees 29, a concurrent request
raises the row to 30 before the increment, and the handler returns the
quota body. -/
theorem lost_race_discards_content_witness :
    generateHandler ⟨none, true, true, true, true⟩ (some 29) (some 30)
      (.ok ⟨"", "", "", [], "", [], "", "", ""⟩) =
      (some 30,
        .quotaExceeded (limitMsg "creditcommander") true 30 30 "creditcommander") :=
  (lost_race_discards_content ⟨none, true, true, true, true⟩ (some 29) (some 30)
    ⟨"", "", "", [], "", [], "", "", ""⟩
    (by decide) (by decide) (by decide) (by decide)).1

/-- C2: the renderer and the checksum are pure functions of the
`(profile, content)` pair — two invocations on the same pair produce
the same HTML string and the same digest. -/
theorem render_deterministic (p : Payload) (g : Content) (h1 h2 : String)
    (e1 : h1 = renderStructuredHTML p g) (e2 : h2 = renderStructuredHTML p g) :
    h1 = h2 ∧ checksumStr h1 = checksumStr h2 := by
  subst e1
  subst e2
  exact ⟨rfl, rfl⟩

/-- A concrete profile payload used by witnesses. -/
def samplePayload : Payload := ⟨"Acme LLC", "LLC", "25", "$50,000", ""⟩

/-- A concrete generated content value used by witnesses. -/
def sampleContent : Content :=
  ⟨"summary", "wins", "plan", [], "cards", [], "banking", "actions", "risks"⟩

/-- Witness for C2 at a concrete pair. -/
theorem render_deterministic_witness :
    renderStructuredHTML samplePayload sampleContent =
      renderStructuredHTML samplePayload sampleContent ∧
    checksumStr (renderStructuredHTML samplePayload sampleContent) =
      checksumStr (renderStructuredHTML samplePayload sampleContent) :=
  render_deterministic samplePayload sampleContent _ _ rfl rfl

/-- One atomic store operation keeps the stored count within the
limit. -/
theorem incStep_inv (s : Store) (p : IncPhase) (h : storeInv s) :
    storeInv (incStep s p).1 := by
  cases p with
  | atUpdate =>
    cases s with
    | none => simpa [incStep] using h
    | some n =>
      by_cases hn : n < 30
      · intro m hm
        simp [incStep, hn] at hm
        omega
      · simpa [incStep, hn] using h
  | atSelect => cases s <;> simpa [incStep] using h
  | atInsert =>
    cases s with
    | none =>
      intro m hm
      simp [incStep] at hm
      omega
    | some n => simpa [incStep] using h
  | done r => simpa [incStep] using h

/-- Scheduling any thread keeps the stored count within the limit. -/
theorem stepThread_inv (c : Config) (i : Nat) (h : storeInv c.store) :
    storeInv (stepThread c i).store := by
  unfold stepThread
  cases hg : c.threads.get? i with
  | none => simpa using h
  | some p => simpa using incStep_inv c.store p h

/-- Any schedule keeps the stored count within the limit. -/
theorem run_inv (sched : List Nat) : ∀ c : Config, storeInv c.store →
    storeInv (run c sched).store := by
  induction sched with
  | nil => intro c h; simpa [run] using h
  | cons i rest ih =>
    intro c h
    simpa [run, List.foldl_cons] using ih (stepThread c i) (stepThread_inv c i h)

/-- Evaluation of one sequential increment below the limit. -/
theorem incrementUsage_lt (k : Nat) (hk : k < 30) :
    incrementUsage true true (some k) = (some (k + 1), ⟨true, k + 1, false⟩) := by
  simp [incrementUsage, hk]

/-- Evaluation of one sequential increment at the limit. -/
theorem incrementUsage_ge (k : Nat) (hk : ¬ k < 30) :
    incrementUsage true true (some k) = (some k, ⟨false, k, true⟩) := by
  simp [incrementUsage, hk]

/-- Exact behavior of `n` sequential increments starting from a stored
count `k ≤ 30`. -/
theorem iterateInc_some (n : Nat) : ∀ k, k ≤ 30 →
    storedCount (iterateInc n (some k)).1 = min (k + n) 30 ∧
    successCount (iterateInc n (some k)).2 = min n (30 - k) ∧
    ∀ r ∈ (iterateInc n (some k)).2, r.success = false → r.limitReached = true := by
  induction n with
  | zero =>
    intro k hk
    refine ⟨?_, ?_, ?_⟩
    · simp only [iterateInc, storedCount, Option.getD_some]
      omega
    · simp [iterateInc, successCount]
    · simp [iterateInc]
  | succ n ih =>
    intro k hk
    by_cases hlt : k < 30
    · have ih' := ih (k + 1) (by omega)
      refine ⟨?_, ?_, ?_⟩
      · simp only [iterateInc, incrementUsage_lt k hlt]
        rw [show min (k + (n + 1)) 30 = min (k + 1 + n) 30 by omega]
        exact ih'.1
      · simp only [iterateInc, incrementUsage_lt k hlt, successCount,
          List.filter_cons, if_pos]
        have := ih'.2.1
        simp only [successCount] at this
        simp only [List.length_cons, this]
        omega
      · simp only [iterateInc, incrementUsage_lt k hlt, List.mem_cons]
        rintro r (rfl | hr)
        · intro hfalse
          simp at hfalse
        · exact ih'.2.2 r hr
    · have hk30 : k = 30 := by omega
      have ih' := ih k hk
      refine ⟨?_, ?_, ?_⟩
      · simp only [iterateInc, incrementUsage_ge k hlt]
        rw [show min (k + (n + 1)) 30 = min (k + n) 30 by omega]
        exact ih'.1
      · have hthis := ih'.2.1
        simp only [successCount] at hthis
        simp only [iterateInc, incrementUsage_ge k hlt, successCount,
          List.filter_cons]
        simp [hthis]
        omega
      · simp only [iterateInc, incrementUsage_ge k hlt, List.mem_cons]
        rintro r (rfl | hr)
        · intro _; rfl
        · exact ih'.2.2 r hr

/-- C1 (amended): the stored count stays within `0 ≤ count ≤ 30` under
every interleaving of the atomic store operations of concurrent
`incrementUsage` calls (`checkUsageLimit` is read-only by construction),
and `N` sequential (non-interleaved) increments on a fresh counter leave
the stored count at `min(N, 30)`, with exactly `min(N, 30)` calls
reporting `success = true` and every other call reporting
`limitReached = true`.  The original concurrent exactness claim fails —
see the counterexample. -/
theorem usage_counter_bound_and_sequential_exactness :
    (∀ (c : Config) (sched : List Nat), storeInv c.store →
      storeInv (run c sched).store) ∧
    (∀ N : Nat,
      storedCount (iterateInc N none).1 = min N 30 ∧
      successCount (iterateInc N none).2 = min N 30 ∧
      ∀ r ∈ (iterateInc N none).2, r.success = false → r.limitReached = true) := by
  constructor
  · intro c sched h
    exact run_inv sched c h
  · intro N
    cases N with
    | zero => exact ⟨by simp [iterateInc, storedCount], by simp [iterateInc, successCount], by simp [iterateInc]⟩
    | succ n =>
      have hfirst : incrementUsage true true none = (some 1, ⟨true, 1, false⟩) := by
        simp [incrementUsage]
      have ih := iterateInc_some n 1 (by omega)
      refine ⟨?_, ?_, ?_⟩
      · simp only [iterateInc, hfirst]
        rw [show min (n + 1) 30 = min (1 + n) 30 by omega]
        exact ih.1
      · simp only [iterateInc, hfirst, successCount, List.filter_cons, if_pos]
        have := ih.2.1
        simp only [successCount] at this
        simp only [List.length_cons, this]
        omega
      · simp only [iterateInc, hfirst, List.mem_cons]
        rintro r (rfl | hr)
        · intro hfalse
          simp at hfalse
        · exact ih.2.2 r hr

/-- Witness for C1 at a concrete configuration and call count. -/
theorem usage_counter_bound_and_sequential_exactness_witness :
    storeInv (run ⟨none, [.atUpdate, .atUpdate]⟩ [0, 1, 0, 1, 0, 1]).store ∧
    storedCount (iterateInc 31 none).1 = min 31 30 ∧
    successCount (iterateInc 31 none).2 = min 31 30 :=
  ⟨usage_counter_bound_and_sequential_exactness.1 ⟨none, [.atUpdate, .atUpdate]⟩
      [0, 1, 0, 1, 0, 1] (fun _ h => nomatch h),
   (usage_counter_bound_and_sequential_exactness.2 31).1,
   (usage_counter_bound_and_sequential_exactness.2 31).2.1⟩

/-- C1 counterexample: two concurrent increments on a fresh counter,
interleaved at store-operation granularity (both conditional updates
miss, both selects see no row, the second insert hits the unique key),
finish with a stored count of 1 and a single successful call — not
`min(2, 30) = 2` as claimed. -/
theorem concurrent_fresh_counter_counterexample :
    run ⟨none, [.atUpdate, .atUpdate]⟩ [0, 1, 0, 1, 0, 1] =
      ⟨some 1, [.done ⟨true, 1, false⟩, .done ⟨false, 0, true⟩]⟩ ∧
    storedCount (run ⟨none, [.atUpdate, .atUpdate]⟩ [0, 1, 0, 1, 0, 1]).store ≠
      min 2 30 ∧
    successCount (results (run ⟨none, [.atUpdate, .atUpdate]⟩ [0, 1, 0, 1, 0, 1])) ≠
      min 2 30 := by
  refine ⟨by decide, by decide, by decide⟩

/-- The generated-content object with every narrative field empty and
both recommendation lists empty. -/
def emptyContent : Content := ⟨"", "", "", [], "", [], "", "", ""⟩

/-- C8: rendering a content object whose narrative fields are all
absent/empty and whose recommendation lists are both absent/empty is
total (the renderer is a function) and produces, for every profile
payload, the header followed by the seven narrative regions each
holding the styled placeholder marker, with both recommendation blocks
omitted (`renderVendorRecommendations [] = ""` and
`renderCardRecommendations [] = ""`). -/
theorem empty_content_renders_placeholders (p : Payload) :
    renderStructuredHTML p emptyContent =
      "\n            " ++ headerBlock p ++ sectionsHTML emptyContent ∧
    sectionsHTML emptyContent =
  "\n\n            <div class=\"cc-card\" style=\"padding: 18px; margin-bottom: 20px;\">\n                <h2 class=\"cc-section-title\" style=\"border-left: 2px solid rgba(255,213,74,.35); padding-left: 14px; margin: 0 0 14px 0;\">Profile Summary</h2>\n                <div class=\"section-content\">"
  ++ placeholderMarker
  ++ "</div>\n            </div>\n\n            <div class=\"cc-card\" style=\"padding: 18px; margin-bottom: 20px;\">\n                <h3 class=\"cc-section-title\" style=\"border-left: 2px solid rgba(255,213,74,.35); padding-left: 14px; margin: 0 0 14px 0;\">Banking & Data Signals</h3>\n                <div class=\"section-content\">"
  ++ placeholderMarker
  ++ "</div>\n            </div>\n\n            <div class=\"cc-card\" style=\"padding: 18px; margin-bottom: 20px;\">\n                <h3 class=\"cc-section-title\" style=\"border-left: 2px solid rgba(255,213,74,.35); padding-left: 14px; margin: 0 0 14px 0;\">Quick Wins (0-30 Days)</h3>\n                <div class=\"section-content\">"
  ++ placeholderMarker
  ++ "</div>\n            </div>\n\n            <div class=\"cc-card\" style=\"padding: 18px; margin-bottom: 20px;\">\n                <h3 class=\"cc-section-title\" style=\"border-left: 2px solid rgba(255,213,74,.35); padding-left: 14px; margin: 0 0 14px 0;\">Tiered Trade Lines Plan</h3>\n                <div class=\"section-content\">"
  ++ placeholderMarker
  ++ "</div>\n            </div>\n\n            "
  ++ ""
  ++ "\n\n            <div class=\"cc-card\" style=\"padding: 18px; margin-bottom: 20px;\">\n                <h3 class=\"cc-section-title\" style=\"border-left: 2px solid rgba(255,213,74,.35); padding-left: 14px; margin: 0 0 14px 0;\">Card Strategy</h3>\n                <div class=\"section-content\">"
  ++ placeholderMarker
  ++ "</div>\n            </div>\n\n            "
  ++ ""
  ++ "\n\n            <div class=\"cc-card\" style=\"padding: 18px; margin-bottom: 20px;\">\n                <h3 class=\"cc-section-title\" style=\"border-left: 2px solid rgba(255,213,74,.35); padding-left: 14px; margin: 0 0 14px 0;\">30/60/90-Day Action Plan</h3>\n                <div class=\"section-content\">"
  ++ placeholderMarker
  ++ "</div>\n            </div>\n\n            <div class=\"cc-card\" style=\"padding: 18px; margin-bottom: 20px;\">\n                <h3 class=\"cc-section-title\" style=\"border-left: 2px solid rgba(255,213,74,.35); padding-left: 14px; margin: 0 0 14px 0;\">Risk Flags & Compliance</h3>\n                <div class=\"section-content\">"
  ++ placeholderMarker
  ++ "</div>\n            </div>\n        " ∧
    renderVendorRecommendations [] = "" ∧
    renderCardRecommendations [] = "" ∧
    placeholderMarker ≠ "" :=
  ⟨rfl, rfl, rfl, rfl, by decide⟩

/-- Two sorted permutations of each other with pairwise-distinct keys
are equal. -/
theorem sorted_perm_nodup_keys_eq {α : Type} (key : α → Nat) :
    ∀ l₁ l₂ : List α, l₁.Perm l₂ →
      l₁.Sorted (fun a b => key a ≤ key b) →
      l₂.Sorted (fun a b => key a ≤ key b) →
      (l₁.map key).Nodup → l₁ = l₂ := by
  intro l₁
  induction l₁ with
  | nil =>
    intro l₂ hp _ _ _
    exact hp.nil_eq
  | cons a t₁ ih =>
    intro l₂ hp hs₁ hs₂ hnd
    cases l₂ with
    | nil => exact hp.eq_nil
    | cons b t₂ =>
      have hnd' : (∀ x ∈ t₁, ¬ key x = key a) ∧ (List.map key t₁).Nodup := by
        simpa using hnd
      have hab : a = b := by
        by_contra hne
        have ha2 : a ∈ t₂ := by
          rcases List.mem_cons.mp (hp.mem_iff.mp (List.mem_cons_self a t₁)) with h | h
          · exact absurd h hne
          · exact h
        have hb1 : b ∈ t₁ := by
          rcases List.mem_cons.mp (hp.mem_iff.mpr (List.mem_cons_self b t₂)) with h | h
          · exact absurd h.symm hne
          · exact h
        have h1 : key a ≤ key b := List.rel_of_sorted_cons hs₁ b hb1
        have h2 : key b ≤ key a := List.rel_of_sorted_cons hs₂ a ha2
        exact hnd'.1 b hb1 (Nat.le_antisymm h2 h1)
      subst hab
      have := ih t₂ hp.cons_inv (List.sorted_cons.mp hs₁).2
        (List.sorted_cons.mp hs₂).2 hnd'.2
      rw [this]

/-- The card sort is insensitive to the input order when the declared
`applyOrder` keys are pairwise distinct. -/
theorem sortCards_eq_of_perm (cs cs' : List CardRec) (hp : cs.Perm cs')
    (hnd : (cs.map cardKey).Nodup) : sortCards cs = sortCards cs' := by
  haveI : IsTotal CardRec (fun a b => cardKey a ≤ cardKey b) :=
    ⟨fun a b => Nat.le_total _ _⟩
  haveI : IsTrans CardRec (fun a b => cardKey a ≤ cardKey b) :=
    ⟨fun _ _ _ h1 h2 => Nat.le_trans h1 h2⟩
  apply sorted_perm_nodup_keys_eq cardKey
  · exact (List.perm_insertionSort _ cs).trans
      (hp.trans (List.perm_insertionSort _ cs').symm)
  · exact List.sorted_insertionSort _ cs
  · exact List.sorted_insertionSort _ cs'
  · exact (((List.perm_insertionSort _ cs).map cardKey).nodup_iff).mpr hnd

/-- A concrete vendor recommendation used in the order-dependence
counterexamples. -/
def vendorA : VendorRec := ⟨"Uline", "Starter", 600, [], "fits profile", "High"⟩

/-- A second concrete vendor recommendation. -/
def vendorB : VendorRec := ⟨"Quill", "Starter", 620, [], "fits profile", "Medium"⟩

/-- C6 counterexample: the vendor renderer emits the cards in insertion
order — permuting the vendor list changes the rendered HTML, so the
render pipeline does not sort both recommendation lists by a declared
order field. -/
theorem vendor_insertion_order_counterexample :
    [vendorA, vendorB].Perm [vendorB, vendorA] ∧
    renderVendorRecommendations [vendorA, vendorB] ≠
      renderVendorRecommendations [vendorB, vendorA] :=
  ⟨List.Perm.swap vendorB vendorA [], by decide⟩

/-- C6 (amended): only the card recommendation list is sorted by its
declared `applyOrder` field before rendering — the card block is
independent of the input ordering whenever the declared orders are
pairwise distinct — while the vendor recommendation list is rendered in
insertion order, so the vendor block does depend on the input
ordering. -/
theorem recommendation_list_ordering :
    (∀ cs cs' : List CardRec, cs.Perm cs' → (cs.map cardKey).Nodup →
      renderCardRecommendations cs = renderCardRecommendations cs') ∧
    (∃ vs vs' : List VendorRec, vs.Perm vs' ∧
      renderVendorRecommendations vs ≠ renderVendorRecommendations vs') := by
  constructor
  · intro cs cs' hp hnd
    unfold renderCardRecommendations
    rw [hp.length_eq, sortCards_eq_of_perm cs cs' hp hnd]
  · exact ⟨[vendorA, vendorB], [vendorB, vendorA],
      List.Perm.swap vendorB vendorA [], by decide⟩

/-- A concrete card recommendation with `applyOrder = 1`. -/
def cardA : CardRec := ⟨"Amex Blue Business", "Amex", 680, "$5,000", "fits", "High", some 1⟩

/-- A concrete card recommendation with `applyOrder = 2`. -/
def cardB : CardRec := ⟨"Chase Ink", "Chase", 700, "$8,000", "fits", "Medium", some 2⟩

/-- Witness for C6 (amended) at a concrete permuted pair of card
lists. -/
theorem recommendation_list_ordering_witness :
    renderCardRecommendations [cardA, cardB] =
      renderCardRecommendations [cardB, cardA] :=
  recommendation_list_ordering.1 [cardA, cardB] [cardB, cardA]
    (List.Perm.swap cardB cardA []) (by decide)

/-- C7: a report owned by identity A is invisible to identity B: it
never appears in B's list, and both `Get` and `Delete` by B answer with
exactly the same not-found response (and unchanged database, for
delete) as they do for an id that exists nowhere — never a distinct
"forbidden" outcome. -/
theorem ownership_isolation (db : List Report) (rep : Report)
    (idA idB toolkit : String)
    (hmem : rep ∈ db) (hA : rep.userId = idA) (hAB : idB ≠ idA)
    (hid : ∀ r ∈ db, r.id = rep.id → r.userId = idA) :
    rep.id ∉ (listReports db idB toolkit).map ReportSummary.id ∧
    getReport db rep.id idB = .notFound "Report not found." ∧
    deleteReport db rep.id idB =
      (db, .notFound "Report not found or access denied.") ∧
    ∀ fid : Nat, (∀ r ∈ db, r.id ≠ fid) →
      getReport db fid idB = .notFound "Report not found." ∧
      deleteReport db fid idB =
        (db, .notFound "Report not found or access denied.") := by
  have hpred : ∀ x ∈ db, ¬ ((x.id == rep.id && x.userId == idB) = true) := by
    intro x hx hpx
    rw [Bool.and_eq_true, beq_iff_eq, beq_iff_eq] at hpx
    have hxa : x.userId = idA := hid x hx hpx.1
    exact hAB (by rw [← hpx.2, hxa])
  refine ⟨?_, ?_, ?_, ?_⟩
  · intro hmem'
    rcases List.mem_map.mp hmem' with ⟨sm, hsm, hsmid⟩
    have hsm' : ∃ x, (x ∈ db ∧ toolkitMatch toolkit x = true ∧ x.userId = idB) ∧
        summarize x = sm := by
      simpa [listReports] using hsm
    rcases hsm' with ⟨x, ⟨hxdb, _, hxB⟩, hxsum⟩
    rw [← hxsum] at hsmid
    simp only [summarize] at hsmid
    have hxa : x.userId = idA := hid x hxdb hsmid
    exact hAB (by rw [← hxB, hxa])
  · have hfind : db.find? (fun r => r.id == rep.id && r.userId == idB) = none :=
      List.find?_eq_none.mpr hpred
    simp [getReport, hfind]
  · have hfilter : (db.filter fun r => r.id == rep.id && r.userId == idB) = [] :=
      List.filter_eq_nil_iff.mpr hpred
    simp [deleteReport, hfilter]
  · intro fid hfresh
    have hpred' : ∀ x ∈ db, ¬ ((x.id == fid && x.userId == idB) = true) := by
      intro x hx hpx
      rw [Bool.and_eq_true, beq_iff_eq] at hpx
      exact hfresh x hx hpx.1
    constructor
    · have hfind : db.find? (fun r => r.id == fid && r.userId == idB) = none :=
        List.find?_eq_none.mpr hpred'
      simp [getReport, hfind]
    · have hfilter : (db.filter fun r => r.id == fid && r.userId == idB) = [] :=
        List.filter_eq_nil_iff.mpr hpred'
      simp [deleteReport, hfilter]

/-- A single-row reports table used by the ownership witness. -/
def sampleDb : List Report := [⟨1, "anon_alice", "creditcommander", "roadmap", 5⟩]

/-- Witness for C7: Alice's report is invisible to Bob's list, get and
delete. -/
theorem ownership_isolation_witness :
    (1 : Nat) ∉ (listReports sampleDb "anon_bob" "creditcommander").map
      ReportSummary.id ∧
    getReport sampleDb 1 "anon_bob" = .notFound "Report not found." ∧
    deleteReport sampleDb 1 "anon_bob" =
      (sampleDb, .notFound "Report not found or access denied.") :=
  ⟨(ownership_isolation sampleDb ⟨1, "anon_alice", "creditcommander", "roadmap", 5⟩
      "anon_alice" "anon_bob" "creditcommander" (by decide) rfl (by decide)
      (by decide)).1,
   (ownership_isolation sampleDb ⟨1, "anon_alice", "creditcommander", "roadmap", 5⟩
      "anon_alice" "anon_bob" "creditcommander" (by decide) rfl (by decide)
      (by decide)).2.1,
   (ownership_isolation sampleDb ⟨1, "anon_alice", "creditcommander", "roadmap", 5⟩
      "anon_alice" "anon_bob" "creditcommander" (by decide) rfl (by decide)
      (by decide)).2.2.1⟩

/-! ### Checksum sensitivity: the hash step is injective in the running
hash for a fixed code, and injective in the code for a fixed running
hash, so one changed code unit always changes the final 32-bit value,
and the eight-hex-digit rendering is injective on 32-bit values. -/

/-- `M32` as a power of two. -/
theorem M32_eq : M32 = 2 ^ 32 := by norm_num [M32]

/-- `M32` is positive. -/
theorem M32_pos : 0 < M32 := by norm_num [M32]

/-- The hash step stays below `2^32`. -/
theorem dstep_lt (h c : Nat) : dstep h c < M32 := by
  unfold dstep
  rw [M32_eq]
  exact Nat.xor_lt_two_pow (M32_eq ▸ Nat.mod_lt _ M32_pos)
    (M32_eq ▸ Nat.mod_lt _ M32_pos)

/-- Folding the hash step stays below `2^32`. -/
theorem foldl_dstep_lt (l : List Nat) : ∀ h, h < M32 → l.foldl dstep h < M32 := by
  induction l with
  | nil =>
    intro h hh
    simpa using hh
  | cons c cs ih =>
    intro h _
    simpa [List.foldl_cons] using ih (dstep h c) (dstep_lt h c)

/-- The full hash is a 32-bit value. -/
theorem checksumHash_lt (l : List Nat) : checksumHash l < M32 :=
  foldl_dstep_lt l 5381 (by norm_num [M32])

/-- Multiplication by 33 is injective modulo `2^32` (33 is odd). -/
theorem mul33_mod_inj (h1 h2 : Nat) (b1 : h1 < M32) (b2 : h2 < M32)
    (heq : (h1 * 33) % M32 = (h2 * 33) % M32) : h1 = h2 := by
  have hco : Nat.gcd M32 33 = 1 := by
    rw [M32_eq]
    exact Nat.Coprime.pow_left 32
      ((Nat.prime_two.coprime_iff_not_dvd).mpr (by decide))
  have hmm : 33 * h1 ≡ 33 * h2 [MOD M32] := by
    unfold Nat.ModEq
    simpa [Nat.mul_comm] using heq
  have hmod : h1 ≡ h2 [MOD M32] := Nat.ModEq.cancel_left_of_coprime hco hmm
  unfold Nat.ModEq at hmod
  rwa [Nat.mod_eq_of_lt b1, Nat.mod_eq_of_lt b2] at hmod

/-- The hash step is injective in the running hash. -/
theorem dstep_inj_left (c h1 h2 : Nat) (b1 : h1 < M32) (b2 : h2 < M32)
    (heq : dstep h1 c = dstep h2 c) : h1 = h2 := by
  unfold dstep at heq
  exact mul33_mod_inj h1 h2 b1 b2 (Nat.xor_left_inj.mp heq)

/-- Folding the remaining code units is injective in the running
hash. -/
theorem foldl_dstep_inj (l : List Nat) : ∀ h1 h2, h1 < M32 → h2 < M32 →
    l.foldl dstep h1 = l.foldl dstep h2 → h1 = h2 := by
  induction l with
  | nil =>
    intro h1 h2 _ _ heq
    simpa using heq
  | cons c cs ih =>
    intro h1 h2 b1 b2 heq
    exact dstep_inj_left c h1 h2 b1 b2
      (ih (dstep h1 c) (dstep h2 c) (dstep_lt h1 c) (dstep_lt h2 c)
        (by simpa [List.foldl_cons] using heq))

/-- Every digit emitted by `hexDigitsLE` is below 16. -/
theorem hexDigitsLE_lt (k : Nat) : ∀ n, ∀ d ∈ hexDigitsLE k n, d < 16 := by
  induction k with
  | zero =>
    intro n d hd
    simp [hexDigitsLE] at hd
  | succ k ih =>
    intro n d hd
    simp only [hexDigitsLE, List.mem_cons] at hd
    rcases hd with rfl | hd
    · exact Nat.mod_lt _ (by norm_num)
    · exact ih (n / 16) d hd

/-- The digit list determines the value below `16^k`. -/
theorem hexDigitsLE_inj (k : Nat) : ∀ n m, n < 16 ^ k → m < 16 ^ k →
    hexDigitsLE k n = hexDigitsLE k m → n = m := by
  induction k with
  | zero =>
    intro n m hn hm _
    simp only [pow_zero] at hn hm
    omega
  | succ k ih =>
    intro n m hn hm heq
    simp only [hexDigitsLE, List.cons.injEq] at heq
    have hdiv : n / 16 = m / 16 := by
      apply ih
      · exact (Nat.div_lt_iff_lt_mul (by norm_num)).mpr (by rw [← pow_succ]; exact hn)
      · exact (Nat.div_lt_iff_lt_mul (by norm_num)).mpr (by rw [← pow_succ]; exact hm)
      · exact heq.2
    have hmod := heq.1
    omega

/-- The hexadecimal digit characters are pairwise distinct below 16. -/
theorem hexDigitChar_inj : ∀ a, a < 16 → ∀ b, b < 16 →
    hexDigitChar a = hexDigitChar b → a = b := by decide

/-- Mapping digits to characters is injective on digit lists. -/
theorem map_hexDigitChar_inj : ∀ l1 l2 : List Nat, (∀ d ∈ l1, d < 16) →
    (∀ d ∈ l2, d < 16) → l1.map hexDigitChar = l2.map hexDigitChar → l1 = l2 := by
  intro l1
  induction l1 with
  | nil =>
    intro l2 _ _ heq
    cases l2 with
    | nil => rfl
    | cons b t2 => simp at heq
  | cons a t ih =>
    intro l2 h1 h2 heq
    cases l2 with
    | nil => simp at heq
    | cons b t2 =>
      simp only [List.map_cons, List.cons.injEq] at heq
      have hab : a = b := hexDigitChar_inj a (h1 a (List.mem_cons_self a t))
        b (h2 b (List.mem_cons_self b t2)) heq.1
      subst hab
      rw [ih t2 (fun d hd => h1 d (List.mem_cons_of_mem _ hd))
        (fun d hd => h2 d (List.mem_cons_of_mem _ hd)) heq.2]

/-- The padded eight-digit hexadecimal rendering is injective on 32-bit
values. -/
theorem toHex8_inj (n m : Nat) (hn : n < M32) (hm : m < M32)
    (heq : toHex8 n = toHex8 m) : n = m := by
  have h16 : (16 : Nat) ^ 8 = M32 := by norm_num [M32]
  have hdata : ((hexDigitsLE 8 n).reverse).map hexDigitChar =
      ((hexDigitsLE 8 m).reverse).map hexDigitChar := by
    have h2 := congrArg String.data heq
    simpa [toHex8] using h2
  have hrev : (hexDigitsLE 8 n).reverse = (hexDigitsLE 8 m).reverse :=
    map_hexDigitChar_inj _ _
      (fun d hd => hexDigitsLE_lt 8 n d (List.mem_reverse.mp hd))
      (fun d hd => hexDigitsLE_lt 8 m d (List.mem_reverse.mp hd)) hdata
  have hlists : hexDigitsLE 8 n = hexDigitsLE 8 m := by
    simpa using congrArg List.reverse hrev
  exact hexDigitsLE_inj 8 n m (h16 ▸ hn) (h16 ▸ hm) hlists

/-- C5: replacing the code unit at any position of a string with a
different code unit changes the checksum digest — the digest is
injective under single-character replacement. -/
theorem checksum_single_char_sensitivity (s : List Nat) (i : Nat) (c' : Nat)
    (hs : ∀ u ∈ s, u < 65536) (hc : c' < 65536) (hi : i < s.length)
    (hne : c' ≠ s.get ⟨i, hi⟩) :
    checksum (s.set i c') ≠ checksum s := by
  intro heq
  have hhash : checksumHash (s.set i c') = checksumHash s :=
    toHex8_inj _ _ (checksumHash_lt _) (checksumHash_lt _) heq
  have hsplitL : s.set i c' = s.take i ++ c' :: s.drop (i + 1) :=
    List.set_eq_take_cons_drop c' hi
  have hsplitR : s = s.take i ++ s.get ⟨i, hi⟩ :: s.drop (i + 1) := by
    conv_lhs => rw [← List.take_append_drop i s]
    rw [List.drop_eq_getElem_cons hi]
    rfl
  have hL : checksumHash (s.set i c') =
      (s.drop (i + 1)).foldl dstep (dstep ((s.take i).foldl dstep 5381) c') := by
    rw [hsplitL]
    unfold checksumHash
    rw [List.foldl_append, List.foldl_cons]
  have hR : checksumHash s =
      (s.drop (i + 1)).foldl dstep (dstep ((s.take i).foldl dstep 5381)
        (s.get ⟨i, hi⟩)) := by
    conv_lhs => rw [hsplitR]
    unfold checksumHash
    rw [List.foldl_append, List.foldl_cons]
  rw [hL, hR] at hhash
  have hstep : dstep ((s.take i).foldl dstep 5381) c' =
      dstep ((s.take i).foldl dstep 5381) (s.get ⟨i, hi⟩) :=
    foldl_dstep_inj (s.drop (i + 1)) _ _ (dstep_lt _ _) (dstep_lt _ _) hhash
  unfold dstep at hstep
  have hmods : c' % M32 = (s.get ⟨i, hi⟩) % M32 :=
    Nat.xor_right_inj.mp hstep
  have hu : s.get ⟨i, hi⟩ < 65536 := hs _ (List.get_mem s i hi)
  have hcM : c' < M32 := by
    have := hc
    norm_num [M32] at *
    omega
  have huM : s.get ⟨i, hi⟩ < M32 := by
    have := hu
    norm_num [M32] at *
    omega
  rw [Nat.mod_eq_of_lt hcM, Nat.mod_eq_of_lt huM] at hmods
  exact hne hmods

/-- Witness for C5 at a concrete two-character string. -/
theorem checksum_single_char_sensitivity_witness :
    checksum ([104, 105].set 0 106) ≠ checksum [104, 105] :=
  checksum_single_char_sensitivity [104, 105] 0 106 (by decide) (by decide)
    (by decide) (by decide)

end CreditCommander
